import Mathlib

/-!
Verification of the NFT-marketplace upload-and-mint workflow.

The development shallowly embeds the two source files of the repository:

* the upload API route (`mustEnv`, `randomKey`, `getCidByHead`, `POST`) —
  a Next.js route that writes an image and a metadata JSON document to an
  S3-compatible, IPFS-backed object store and resolves both content
  identifiers (CIDs);
* the client page's mint workflow (`mintNft`, the button click handler).

External collaborators (the S3 client, the form parser, the wallet) are
modelled as oracles: functions supplied as parameters whose results the
route inspects.  Every call the route makes to the object store is recorded
in an event trace, so that claims about "no storage write happened" are
statements about that trace.
-/

namespace NftUpload

/-! ## JavaScript-style helpers (truthiness, `||` defaulting) -/

/-- JS truthiness of a nullable string: `null`/`undefined` and `""` are falsy. -/
def isTruthy : Option String → Bool
  | none => false
  | some s => s != ""

/-- JS `a || b` on nullable strings: `b` when `a` is falsy. -/
def jsOr (a b : Option String) : Option String :=
  if isTruthy a then a else b

/-- JS `a || d` where the result is used as a string: the default `d` replaces
a missing or empty value. -/
def jsOrStr (a : Option String) (d : String) : String :=
  match a with
  | none => d
  | some s => if s = "" then d else s

/-- Normalise a nullable string to `some v` exactly when it is truthy:
the shape JS `if (!x)` branches on. -/
def truthyVal (a : Option String) : Option String :=
  match a with
  | none => none
  | some s => if s = "" then none else some s

/-- JS `String.prototype.trim`. -/
def jsTrim (s : String) : String :=
  String.mk (((s.data.dropWhile Char.isWhitespace).reverse.dropWhile Char.isWhitespace).reverse)

/-- JS `s.startsWith(p)`. -/
def jsStartsWith (s p : String) : Bool :=
  List.isPrefixOf p.data s.data

/-- JS `.replace(/^"+|"+$/g, "")`: strip runs of double quotes at both ends. -/
def stripQuotes (s : String) : String :=
  String.mk (((s.data.dropWhile (fun c => c = '"')).reverse.dropWhile (fun c => c = '"')).reverse)

/-- JS `.replace(/\s+/g, "_")`, one pass with a previous-was-whitespace flag:
every maximal run of whitespace becomes a single underscore. -/
def collapseWsAux : Bool → List Char → List Char
  | _, [] => []
  | prevWs, c :: cs =>
    if c.isWhitespace then
      if prevWs then collapseWsAux true cs
      else '_' :: collapseWsAux true cs
    else c :: collapseWsAux false cs

def sanitizeFilename (s : String) : String :=
  String.mk (collapseWsAux false s.data)

/-! ## The upload route (src/app/frontend/app/layout.tsx, API part)

`mustEnv` (lines 30–34): read an environment value, throw a named-key error
when it is absent or empty, else trim it and strip surrounding quotes. -/

def mustEnv (env : String → Option String) (key : String) : Except String String :=
  match env key with
  | none => Except.error ("Missing " ++ key ++ " in .env.local")
  | some v =>
    if v = "" then Except.error ("Missing " ++ key ++ " in .env.local")
    else Except.ok (stripQuotes (jsTrim v))

/-- `randomKey` (lines 36–39): `prefix/now-random-sanitizedFilename`;
the clock reading and the random hex string are oracle inputs. -/
def randomKey (ns filename : String) (now : Nat) (rand : String) : String :=
  ns ++ "/" ++ toString now ++ "-" ++ rand ++ "-" ++ sanitizeFilename filename

/-- The binary file part of the multipart form. -/
structure FilePart where
  name : String
  type : String
  bytes : List Nat
deriving DecidableEq, Repr

/-- The parsed multipart form: `file`, `name`, `description` fields;
`none` models an absent field (FormData.get returning null). -/
structure UploadForm where
  file : Option FilePart
  nameField : Option String
  descField : Option String
deriving DecidableEq, Repr

/-- The metadata JSON document of lines 132–140:
`{name, description, image, properties: {files: [{uri, type}], category}}`.
`filesUri`/`filesType` are the single entry of `properties.files`. -/
structure MetadataDoc where
  name : String
  description : String
  image : String
  filesUri : String
  filesType : String
  category : String
deriving DecidableEq, Repr

/-- The document of lines 132–140 as the route constructs it: `image` and
`files[0].uri` are the same URI, the category is the literal "image". -/
def mkDoc (nm descr imageUri ftype : String) : MetadataDoc :=
  ⟨nm, descr, imageUri, imageUri, ftype, "image"⟩

/-- A value written to the object store: raw bytes for the image, or the
serialized metadata document (`Buffer.from(JSON.stringify(doc, null, 2))`)
kept in structured form. -/
inductive StoreValue where
  | raw : List Nat → StoreValue
  | jsonDoc : MetadataDoc → StoreValue
deriving DecidableEq, Repr

/-- One call issued to the object-store collaborator. -/
inductive S3Event where
  | put : String → StoreValue → String → S3Event
  | head : String → S3Event
deriving DecidableEq, Repr

/-- The transport metadata of a PutObject response:
`$metadata.httpHeaders` (absent headers are `none`). -/
structure PutResp where
  httpHeaders : String → Option String

/-- A HeadObject response: the object's user metadata and the transport
headers, the four places `getCidByHead` inspects. -/
structure HeadResp where
  metadata : String → Option String
  httpHeaders : String → Option String

/-- The S3 collaborator: what each PutObject/HeadObject send returns,
`Except.error` modelling a thrown exception. -/
structure S3Oracle where
  put : String → StoreValue → String → Except String PutResp
  head : String → Except String HeadResp

/-- `getCidByHead` (lines 41–57), the field extraction: the four candidate
spellings chained with `||`. -/
def getCidByHead (h : HeadResp) : Option String :=
  jsOr (h.metadata "cid")
    (jsOr (h.metadata "CID")
      (jsOr (h.httpHeaders "x-amz-meta-cid") (h.httpHeaders "X-Amz-Meta-Cid")))

/-- The CID header lookup on a put response (lines 107–109 and 155–157):
`hdrs["x-amz-meta-cid"] || hdrs["X-Amz-Meta-Cid"]`. -/
def headerCid (hdrs : String → Option String) : Option String :=
  jsOr (hdrs "x-amz-meta-cid") (hdrs "X-Amz-Meta-Cid")

/-- The two-tier CID resolution the route applies after each put
(lines 105–114 for the image, 154–161 for the metadata): trust the put
response's CID header when truthy, else send a HeadObject for the same key
and use `getCidByHead` on its response.  Returns the resolved value and the
store calls made; an `Except.error` is a thrown exception from the send. -/
def resolveCid (oracle : S3Oracle) (key : String) (hdrs : String → Option String) :
    Except String (Option String) × List S3Event :=
  if isTruthy (headerCid hdrs) then (Except.ok (headerCid hdrs), [])
  else
    match oracle.head key with
    | Except.error msg => (Except.error msg, [S3Event.head key])
    | Except.ok h => (Except.ok (getCidByHead h), [S3Event.head key])

/-- The JSON body of a route response: the 200 body
`{metadataUrl, metadataGatewayUrl, imageIpfs, imageGatewayUrl}` or an error
body `{error, hint?}`. -/
inductive RespBody where
  | ok : String → String → String → String → RespBody
  | err : String → Option String → RespBody
deriving DecidableEq, Repr

structure HttpResponse where
  status : Nat
  body : RespBody
deriving DecidableEq, Repr

/-- The error string of lines 119–120 (image CID unresolvable). -/
def imgCidMissingError : String :=
  "CID missing from upload response (even after HeadObject). নিশ্চিত হন Filebase bucket backend = IPFS এবং endpoint = https://s3.filebase.com"

/-- The hint string of lines 121–122. -/
def imgCidMissingHint : String :=
  "Filebase dashboard → Buckets → select bucket → backend/network must be IPFS. If not, create a new IPFS bucket."

/-- The error string of lines 166–167 (metadata CID unresolvable). -/
def metaCidMissingError : String :=
  "Metadata CID missing (even after HeadObject). Bucket IPFS-backed না হলে CID পাওয়া যাবে না।"

/-- The catch-all of lines 185–191: any thrown error becomes a 500 JSON body
`{error: e.message || "Upload failed"}`. -/
def catchResp (msg : String) : HttpResponse :=
  ⟨500, RespBody.err (if msg = "" then "Upload failed" else msg) none⟩

/-- Lines 61–65: the five required environment values, read in source order;
the first missing one throws.  The value the rest of the handler uses is the
gateway prefix, so that is what the stage returns. -/
def stageEnv (env : String → Option String) : Except String String :=
  match mustEnv env "FILEBASE_ACCESS_KEY" with
  | Except.error m => Except.error m
  | Except.ok _ =>
  match mustEnv env "FILEBASE_SECRET_KEY" with
  | Except.error m => Except.error m
  | Except.ok _ =>
  match mustEnv env "FILEBASE_BUCKET" with
  | Except.error m => Except.error m
  | Except.ok _ =>
  match mustEnv env "FILEBASE_S3_ENDPOINT" with
  | Except.error m => Except.error m
  | Except.ok _ => mustEnv env "FILEBASE_GATEWAY"

/-- Lines 92–184, the body of the handler after validation: upload the image,
resolve its CID (500 on failure), build and upload the metadata document,
resolve its CID (500 on failure), answer 200 with the four URLs.  The second
component is the trace of object-store calls, a thrown send still being
recorded as a call. -/
def processUpload (gateway : String) (file : FilePart) (nm descr : String)
    (oracle : S3Oracle) (n1 : Nat) (r1 : String) (n2 : Nat) (r2 : String) :
    HttpResponse × List S3Event :=
  match oracle.put (randomKey "images" file.name n1 r1) (StoreValue.raw file.bytes) file.type with
  | Except.error msg =>
      (catchResp msg,
       [S3Event.put (randomKey "images" file.name n1 r1) (StoreValue.raw file.bytes) file.type])
  | Except.ok putImg =>
    match resolveCid oracle (randomKey "images" file.name n1 r1) putImg.httpHeaders with
    | (Except.error msg, evs) =>
        (catchResp msg,
         S3Event.put (randomKey "images" file.name n1 r1) (StoreValue.raw file.bytes) file.type :: evs)
    | (Except.ok c, evs) =>
      match truthyVal c with
      | none =>
          (⟨500, RespBody.err imgCidMissingError (some imgCidMissingHint)⟩,
           S3Event.put (randomKey "images" file.name n1 r1) (StoreValue.raw file.bytes) file.type :: evs)
      | some cid =>
        match oracle.put (randomKey "metadata" "metadata.json" n2 r2)
                (StoreValue.jsonDoc (mkDoc nm descr ("ipfs://" ++ cid) file.type))
                "application/json" with
        | Except.error msg =>
            (catchResp msg,
             S3Event.put (randomKey "images" file.name n1 r1) (StoreValue.raw file.bytes) file.type ::
               evs ++
               [S3Event.put (randomKey "metadata" "metadata.json" n2 r2)
                  (StoreValue.jsonDoc (mkDoc nm descr ("ipfs://" ++ cid) file.type)) "application/json"])
        | Except.ok putMeta =>
          match resolveCid oracle (randomKey "metadata" "metadata.json" n2 r2) putMeta.httpHeaders with
          | (Except.error msg, evs2) =>
              (catchResp msg,
               S3Event.put (randomKey "images" file.name n1 r1) (StoreValue.raw file.bytes) file.type ::
                 evs ++
                 S3Event.put (randomKey "metadata" "metadata.json" n2 r2)
                   (StoreValue.jsonDoc (mkDoc nm descr ("ipfs://" ++ cid) file.type)) "application/json" ::
                 evs2)
          | (Except.ok c2, evs2) =>
            match truthyVal c2 with
            | none =>
                (⟨500, RespBody.err metaCidMissingError none⟩,
                 S3Event.put (randomKey "images" file.name n1 r1) (StoreValue.raw file.bytes) file.type ::
                   evs ++
                   S3Event.put (randomKey "metadata" "metadata.json" n2 r2)
                     (StoreValue.jsonDoc (mkDoc nm descr ("ipfs://" ++ cid) file.type)) "application/json" ::
                   evs2)
            | some mcid =>
                (⟨200, RespBody.ok ("ipfs://" ++ mcid) (gateway ++ "/" ++ mcid)
                         ("ipfs://" ++ cid) (gateway ++ "/" ++ cid)⟩,
                 S3Event.put (randomKey "images" file.name n1 r1) (StoreValue.raw file.bytes) file.type ::
                   evs ++
                   S3Event.put (randomKey "metadata" "metadata.json" n2 r2)
                     (StoreValue.jsonDoc (mkDoc nm descr ("ipfs://" ++ cid) file.type)) "application/json" ::
                   evs2)

/-- `POST` (lines 59–191).  Inputs: the environment, the form-parse result
(`Except.error` = `req.formData()` threw), the store oracle, and the clock
and random readings of the two `randomKey` calls.  Output: the HTTP response
and the trace of object-store calls. -/
def POST (env : String → Option String) (reqForm : Except String UploadForm)
    (oracle : S3Oracle) (n1 : Nat) (r1 : String) (n2 : Nat) (r2 : String) :
    HttpResponse × List S3Event :=
  match stageEnv env with
  | Except.error msg => (catchResp msg, [])
  | Except.ok gateway =>
    match reqForm with
    | Except.error msg => (catchResp msg, [])
    | Except.ok form =>
      match form.file with
      | none => (⟨400, RespBody.err "File missing" none⟩, [])
      | some file =>
        if jsStartsWith file.type "image/" then
          processUpload gateway file
            (jsOrStr form.nameField "My NFT") (jsOrStr form.descField "")
            oracle n1 r1 n2 r2
        else
          (⟨400, RespBody.err "Only image files are allowed" none⟩, [])

/-- The module top level of the route file: it only imports the S3 client
and exports the runtime tag; no environment value is read until a request
invokes `POST`, so loading the module never fails. -/
def routeModuleInit (_env : String → Option String) : Except String Unit :=
  Except.ok ()

/-! ## The client page (src/app/frontend/app/page.tsx) -/

/-- What the page reads from the wallet adapter. -/
structure WalletState where
  connected : Bool
  publicKeyPresent : Bool
deriving DecidableEq, Repr

/-- The React state of the page component. -/
structure PageState where
  name : String
  description : String
  file : Option FilePart
  status : String
  busy : Bool
  mintAddress : Option String
  metadataUrl : Option String
  metadataGatewayUrl : Option String
  imageGatewayUrl : Option String
deriving DecidableEq, Repr

/-- A successfully parsed `/api/upload` response body (lines 14–19). -/
structure UploadOk where
  metadataUrl : String
  metadataGatewayUrl : Option String
  imageIpfs : Option String
  imageGatewayUrl : Option String
deriving DecidableEq, Repr

/-- One outbound request of the workflow: the upload POST of
`uploadToStorage`, or the `metaplex.nfts().create` call. -/
inductive ClientAction where
  | upload : String → String → FilePart → ClientAction
  | mint : String → String → Nat → ClientAction
deriving DecidableEq, Repr

/-- `mintNft` (lines 81–106) together with the `uploadToStorage` it calls
(lines 44–79).  `uploadOutcome` is what the fetch-and-parse of the upload
response amounts to (`Except.error` = any of its throws), `mintOutcome` the
result of the Metaplex create call.  Returns the state after the call, the
outbound requests issued, and `Except.error e` when the function threw `e`
(to be caught by the click handler's `.catch`). -/
def mintNft (wallet : WalletState) (metaplexReady : Bool)
    (uploadOutcome : Except String UploadOk) (mintOutcome : Except String String)
    (st : PageState) : PageState × List ClientAction × Except String Unit :=
  if ¬ (wallet.connected ∧ wallet.publicKeyPresent) then
    (st, [], Except.error "Connect wallet first (Phantom Devnet).")
  else if ¬ metaplexReady then
    (st, [], Except.error "Metaplex not ready yet")
  else
    match st.file with
    | none => (st, [], Except.error "Please select an image first")
    | some f =>
      match uploadOutcome with
      | Except.error e =>
          ({st with busy := false, mintAddress := none,
                    status := "Uploading image + metadata to Filebase (IPFS)..."},
           [ClientAction.upload st.name st.description f],
           Except.error e)
      | Except.ok u =>
        match mintOutcome with
        | Except.error e =>
            ({st with busy := false, mintAddress := none,
                      status := "Minting NFT on Solana Devnet...",
                      metadataUrl := some u.metadataUrl,
                      metadataGatewayUrl := u.metadataGatewayUrl,
                      imageGatewayUrl := u.imageGatewayUrl},
             [ClientAction.upload st.name st.description f,
              ClientAction.mint u.metadataUrl st.name 0],
             Except.error e)
        | Except.ok addr =>
            ({st with busy := false, mintAddress := some addr,
                      status := "✅ NFT Minted!",
                      metadataUrl := some u.metadataUrl,
                      metadataGatewayUrl := u.metadataGatewayUrl,
                      imageGatewayUrl := u.imageGatewayUrl},
             [ClientAction.upload st.name st.description f,
              ClientAction.mint u.metadataUrl st.name 0],
             Except.ok ())

/-- The mint button (lines 166–181): it is rendered with
`disabled = !wallet.connected || busy`, so a click while disabled does
nothing at all; otherwise it runs `mintNft` with a `.catch` that stores the
failure message and clears the busy flag. -/
def clickMint (wallet : WalletState) (metaplexReady : Bool)
    (uploadOutcome : Except String UploadOk) (mintOutcome : Except String String)
    (st : PageState) : PageState × List ClientAction :=
  if ¬ wallet.connected ∨ st.busy then (st, [])
  else
    match mintNft wallet metaplexReady uploadOutcome mintOutcome st with
    | (st1, acts, Except.ok _) => (st1, acts)
    | (st1, acts, Except.error e) =>
        ({st1 with busy := false, status := "❌ " ++ e}, acts)

/-! ## Concrete fixtures used by the witness theorems -/

/-- An environment with every key present (value "GW"). -/
def envW : String → Option String := fun _ => some "GW"

/-- An environment with no keys at all. -/
def envNone : String → Option String := fun _ => none

/-- A store whose puts answer with a CID header `Qm1` and whose heads carry
no CID anywhere. -/
def oracleW : S3Oracle :=
  { put := fun _ _ _ => Except.ok ⟨fun k => if k = "x-amz-meta-cid" then some "Qm1" else none⟩,
    head := fun _ => Except.ok ⟨fun _ => none, fun _ => none⟩ }

/-- A store that never exposes a CID: empty put headers, empty head
metadata. -/
def oracleNoCid : S3Oracle :=
  { put := fun _ _ _ => Except.ok ⟨fun _ => none⟩,
    head := fun _ => Except.ok ⟨fun _ => none, fun _ => none⟩ }

/-- A store whose puts carry no CID header but whose heads expose one in
the object metadata. -/
def oracleHeadCid : S3Oracle :=
  { put := fun _ _ _ => Except.ok ⟨fun _ => none⟩,
    head := fun _ => Except.ok ⟨fun k => if k = "cid" then some "Qm2" else none, fun _ => none⟩ }

def fileW : FilePart := ⟨"a.png", "image/png", [1, 2]⟩

def formW : UploadForm := ⟨some fileW, none, none⟩

def formNoFile : UploadForm := ⟨none, some "n", some "d"⟩

def formBadType : UploadForm := ⟨some ⟨"a.txt", "text/plain", [1]⟩, none, none⟩

def pageBusy : PageState :=
  ⟨"My NFT", "Demo NFT on Devnet", some fileW, "Working", true, none, none, none, none⟩

/-! ## Helper lemmas -/

lemma truthyVal_none_of_falsy {o : Option String} (h : isTruthy o = false) :
    truthyVal o = none := by
  cases o with
  | none => rfl
  | some s => simp [isTruthy] at h; simp [truthyVal, h]

lemma truthyVal_some_iff {o : Option String} {c : String} :
    truthyVal o = some c ↔ o = some c ∧ c ≠ "" := by
  cases o with
  | none => simp [truthyVal]
  | some s =>
    simp only [truthyVal]
    by_cases hs : s = "" <;> simp [hs] <;> aesop

lemma jsOrStr_ne_empty {o : Option String} {d : String} (hd : d ≠ "") :
    jsOrStr o d ≠ "" := by
  cases o with
  | none => simpa [jsOrStr]
  | some s => by_cases hs : s = "" <;> simp [jsOrStr, hs, hd]

lemma mustEnv_error_of_falsy {env : String → Option String} {k : String}
    (h : isTruthy (env k) = false) :
    mustEnv env k = Except.error ("Missing " ++ k ++ " in .env.local") := by
  cases he : env k with
  | none => simp [mustEnv, he]
  | some v => rw [he] at h; simp [isTruthy] at h; simp [mustEnv, he, h]

lemma mustEnv_ok_of_truthy {env : String → Option String} {k : String}
    (h : isTruthy (env k) = true) : ∃ v, mustEnv env k = Except.ok v := by
  cases he : env k with
  | none => rw [he] at h; simp [isTruthy] at h
  | some v =>
    rw [he] at h
    simp [isTruthy] at h
    exact ⟨stripQuotes (jsTrim v), by simp [mustEnv, he, h]⟩

lemma stageEnv_gateway {env : String → Option String} {gw : String}
    (h : stageEnv env = Except.ok gw) :
    mustEnv env "FILEBASE_GATEWAY" = Except.ok gw := by
  unfold stageEnv at h
  repeat' split at h
  all_goals simp_all

/-- No PutObject call ever originates from the CID-resolution fallback:
its trace is at most the one HeadObject query. -/
lemma resolveCid_no_put (oracle : S3Oracle) (key : String)
    (hdrs : String → Option String) (k : String) (v : StoreValue) (ct : String) :
    S3Event.put k v ct ∉ (resolveCid oracle key hdrs).2 := by
  unfold resolveCid
  split
  · simp
  · split <;> simp

/-- The calls made by the two-tier resolution: none when the put response
already carried a truthy CID header, exactly one HeadObject otherwise. -/
lemma resolveCid_snd_eq (oracle : S3Oracle) (key : String)
    (hdrs : String → Option String) :
    (resolveCid oracle key hdrs).2 =
      if isTruthy (headerCid hdrs) then [] else [S3Event.head key] := by
  unfold resolveCid
  split
  · simp_all
  · split <;> simp_all

/-- Inversion of the success path: a 200 response pins the whole
execution — the five environment values resolved, the form parsed with a
file, both CIDs resolved non-empty, the response built from the gateway
prefix and the two CIDs, and the trace holding the image put followed by
the metadata put. -/
lemma success_inversion (env : String → Option String) (reqForm : Except String UploadForm)
    (oracle : S3Oracle) (n1 : Nat) (r1 : String) (n2 : Nat) (r2 : String)
    (h : (POST env reqForm oracle n1 r1 n2 r2).1.status = 200) :
    ∃ gw form file cidI cidM evs evs2,
      stageEnv env = Except.ok gw ∧
      reqForm = Except.ok form ∧
      form.file = some file ∧
      cidI ≠ "" ∧ cidM ≠ "" ∧
      POST env reqForm oracle n1 r1 n2 r2 =
        (⟨200, RespBody.ok ("ipfs://" ++ cidM) (gw ++ "/" ++ cidM)
                 ("ipfs://" ++ cidI) (gw ++ "/" ++ cidI)⟩,
         S3Event.put (randomKey "images" file.name n1 r1) (StoreValue.raw file.bytes) file.type ::
           evs ++
           S3Event.put (randomKey "metadata" "metadata.json" n2 r2)
             (StoreValue.jsonDoc (mkDoc (jsOrStr form.nameField "My NFT") (jsOrStr form.descField "")
               ("ipfs://" ++ cidI) file.type)) "application/json" ::
           evs2) := by
  rcases hse : stageEnv env with msg | gw
  · simp [POST, hse, catchResp] at h
  rcases reqForm with msg | form
  · simp [POST, hse, catchResp] at h
  rcases hfile : form.file with _ | file
  · simp [POST, hse, hfile] at h
  rcases htype : jsStartsWith file.type "image/" with _ | _
  · simp [POST, hse, hfile, htype] at h
  rcases hput : oracle.put (randomKey "images" file.name n1 r1) (StoreValue.raw file.bytes)
      file.type with msg | putImg
  · simp [POST, processUpload, hse, hfile, htype, hput, catchResp] at h
  rcases hres : resolveCid oracle (randomKey "images" file.name n1 r1) putImg.httpHeaders
      with ⟨msg | c, evs⟩
  · simp [POST, processUpload, hse, hfile, htype, hput, hres, catchResp] at h
  rcases hc : truthyVal c with _ | cid
  · simp [POST, processUpload, hse, hfile, htype, hput, hres, hc] at h
  rcases hputm : oracle.put (randomKey "metadata" "metadata.json" n2 r2)
      (StoreValue.jsonDoc (mkDoc (jsOrStr form.nameField "My NFT") (jsOrStr form.descField "")
        ("ipfs://" ++ cid) file.type)) "application/json" with msg | putMeta
  · simp [POST, processUpload, hse, hfile, htype, hput, hres, hc, hputm, catchResp] at h
  rcases hres2 : resolveCid oracle (randomKey "metadata" "metadata.json" n2 r2)
      putMeta.httpHeaders with ⟨msg | c2, evs2⟩
  · simp [POST, processUpload, hse, hfile, htype, hput, hres, hc, hputm, hres2, catchResp] at h
  rcases hc2 : truthyVal c2 with _ | mcid
  · simp [POST, processUpload, hse, hfile, htype, hput, hres, hc, hputm, hres2, hc2] at h
  refine ⟨gw, form, file, cid, mcid, evs, evs2, rfl, rfl, hfile,
    (truthyVal_some_iff.mp hc).2, (truthyVal_some_iff.mp hc2).2, ?_⟩
  simp [POST, processUpload, hse, hfile, htype, hput, hres, hc, hputm, hres2, hc2]

/-! ## The claims -/

/-- Claim C1: on the success path, the metadata document the route writes is
exactly `{name, description, image, properties: {files: [{uri, type}],
category: "image"}}`, where `image` and `files[0].uri` both equal the
`imageIpfs` string of the same response (`mkDoc` puts the same URI in both
fields) and `files[0].type` is the request's declared MIME type; `imageIpfs`
itself is `ipfs://` plus a non-empty identifier. -/
theorem metadata_doc_matches_response
    (env : String → Option String) (form : UploadForm) (oracle : S3Oracle)
    (n1 : Nat) (r1 : String) (n2 : Nat) (r2 : String) (file : FilePart)
    (mU mG iI iG : String)
    (hfile : form.file = some file)
    (hresp : (POST env (Except.ok form) oracle n1 r1 n2 r2).1 = ⟨200, RespBody.ok mU mG iI iG⟩) :
    S3Event.put (randomKey "metadata" "metadata.json" n2 r2)
        (StoreValue.jsonDoc (mkDoc (jsOrStr form.nameField "My NFT") (jsOrStr form.descField "")
          iI file.type)) "application/json"
      ∈ (POST env (Except.ok form) oracle n1 r1 n2 r2).2 ∧
    (∃ cid, cid ≠ "" ∧ iI = "ipfs://" ++ cid) := by
  obtain ⟨gw, form', file', cidI, cidM, evs, evs2, hse, hform, hfile', hcI, hcM, heq⟩ :=
    success_inversion env (Except.ok form) oracle n1 r1 n2 r2 (by rw [hresp])
  obtain rfl : form' = form := by injection hform with hh; exact hh.symm
  rw [hfile] at hfile'
  obtain rfl : file' = file := by injection hfile' with hh; exact hh.symm
  have hbody := heq
  rw [Prod.ext_iff] at hbody
  rw [hresp] at hbody
  obtain ⟨hb, -⟩ := hbody
  simp only [HttpResponse.mk.injEq, RespBody.ok.injEq, true_and] at hb
  obtain ⟨hmU, hmG, hI, hiG⟩ := hb
  constructor
  · rw [heq, hI]
    simp
  · exact ⟨cidI, hcI, hI⟩

theorem metadata_doc_matches_response_witness :
    S3Event.put (randomKey "metadata" "metadata.json" 2 "s")
        (StoreValue.jsonDoc (mkDoc (jsOrStr formW.nameField "My NFT") (jsOrStr formW.descField "")
          "ipfs://Qm1" fileW.type)) "application/json"
      ∈ (POST envW (Except.ok formW) oracleW 1 "r" 2 "s").2 ∧
    (∃ cid, cid ≠ "" ∧ "ipfs://Qm1" = "ipfs://" ++ cid) :=
  metadata_doc_matches_response envW formW oracleW 1 "r" 2 "s" fileW
    "ipfs://Qm1" "GW/Qm1" "ipfs://Qm1" "GW/Qm1" rfl (by decide)

/-- Claim C2: when the image put succeeds but neither the put response's CID
header nor the follow-up HeadObject yields a truthy CID, the route answers
500 with the CID-absence error (and its remediation hint), and the trace
shows no second put: only the image put and the one head query ran. -/
theorem img_cid_unresolved_short_circuit
    (env : String → Option String) (gw : String) (form : UploadForm) (file : FilePart)
    (oracle : S3Oracle) (n1 : Nat) (r1 : String) (n2 : Nat) (r2 : String)
    (putResp : PutResp) (headResp : HeadResp)
    (henv : stageEnv env = Except.ok gw)
    (hfile : form.file = some file)
    (htype : jsStartsWith file.type "image/" = true)
    (hput : oracle.put (randomKey "images" file.name n1 r1) (StoreValue.raw file.bytes) file.type
              = Except.ok putResp)
    (hhdr : isTruthy (headerCid putResp.httpHeaders) = false)
    (hhead : oracle.head (randomKey "images" file.name n1 r1) = Except.ok headResp)
    (hnone : isTruthy (getCidByHead headResp) = false) :
    POST env (Except.ok form) oracle n1 r1 n2 r2 =
      (⟨500, RespBody.err imgCidMissingError (some imgCidMissingHint)⟩,
       [S3Event.put (randomKey "images" file.name n1 r1) (StoreValue.raw file.bytes) file.type,
        S3Event.head (randomKey "images" file.name n1 r1)]) ∧
    jsStartsWith imgCidMissingError "CID missing" = true := by
  refine ⟨?_, by decide⟩
  have hres : resolveCid oracle (randomKey "images" file.name n1 r1) putResp.httpHeaders
      = (Except.ok (getCidByHead headResp),
         [S3Event.head (randomKey "images" file.name n1 r1)]) := by
    simp [resolveCid, hhdr, hhead]
  simp [POST, processUpload, henv, hfile, htype, hput, hres, truthyVal_none_of_falsy hnone]

theorem img_cid_unresolved_short_circuit_witness :
    POST envW (Except.ok formW) oracleNoCid 1 "r" 2 "s" =
      (⟨500, RespBody.err imgCidMissingError (some imgCidMissingHint)⟩,
       [S3Event.put (randomKey "images" fileW.name 1 "r") (StoreValue.raw fileW.bytes) fileW.type,
        S3Event.head (randomKey "images" fileW.name 1 "r")]) ∧
    jsStartsWith imgCidMissingError "CID missing" = true :=
  img_cid_unresolved_short_circuit envW "GW" formW fileW oracleNoCid 1 "r" 2 "s"
    ⟨fun _ => none⟩ ⟨fun _ => none, fun _ => none⟩
    rfl rfl (by decide) rfl (by decide) rfl (by decide)

/-- Claim C4: a request with the environment configured but no file field is
answered 400 with the error body "File missing", and the object-store trace
is empty — no put and no head was issued. -/
theorem missing_file_rejected_no_storage
    (env : String → Option String) (gw : String) (form : UploadForm)
    (oracle : S3Oracle) (n1 : Nat) (r1 : String) (n2 : Nat) (r2 : String)
    (henv : stageEnv env = Except.ok gw) (hfile : form.file = none) :
    POST env (Except.ok form) oracle n1 r1 n2 r2 =
      (⟨400, RespBody.err "File missing" none⟩, []) := by
  simp [POST, henv, hfile]

theorem missing_file_rejected_no_storage_witness :
    POST envW (Except.ok formNoFile) oracleW 0 "" 0 "" =
      (⟨400, RespBody.err "File missing" none⟩, []) :=
  missing_file_rejected_no_storage envW "GW" formNoFile oracleW 0 "" 0 "" rfl rfl

/-- Claim C5: a request carrying a file whose MIME type does not start with
"image/" is answered 400 with "Only image files are allowed" and an empty
store trace; and the file-presence check fires first — any form without a
file gets the "File missing" response, so the type check is only ever
reached second. -/
theorem non_image_rejected_no_storage
    (env : String → Option String) (gw : String) (form : UploadForm) (file : FilePart)
    (oracle : S3Oracle) (n1 : Nat) (r1 : String) (n2 : Nat) (r2 : String)
    (henv : stageEnv env = Except.ok gw)
    (hfile : form.file = some file)
    (htype : jsStartsWith file.type "image/" = false) :
    POST env (Except.ok form) oracle n1 r1 n2 r2 =
      (⟨400, RespBody.err "Only image files are allowed" none⟩, []) ∧
    (∀ form' : UploadForm, form'.file = none →
      POST env (Except.ok form') oracle n1 r1 n2 r2 =
        (⟨400, RespBody.err "File missing" none⟩, [])) := by
  constructor
  · simp [POST, henv, hfile, htype]
  · intro form' hf'
    simp [POST, henv, hf']

theorem non_image_rejected_no_storage_witness :
    POST envW (Except.ok formBadType) oracleW 0 "" 0 "" =
      (⟨400, RespBody.err "Only image files are allowed" none⟩, []) ∧
    (∀ form' : UploadForm, form'.file = none →
      POST envW (Except.ok form') oracleW 0 "" 0 "" =
        (⟨400, RespBody.err "File missing" none⟩, [])) :=
  non_image_rejected_no_storage envW "GW" formBadType ⟨"a.txt", "text/plain", [1]⟩
    oracleW 0 "" 0 "" rfl rfl (by decide)

/-- Claim C6: every 200 response returns `metadataUrl` and `imageIpfs` of the
form `ipfs://` plus a non-empty identifier, and `metadataGatewayUrl` and
`imageGatewayUrl` equal the configured gateway prefix (the resolved
`FILEBASE_GATEWAY` value), a slash, and the corresponding identifier. -/
theorem success_urls_well_formed
    (env : String → Option String) (reqForm : Except String UploadForm)
    (oracle : S3Oracle) (n1 : Nat) (r1 : String) (n2 : Nat) (r2 : String)
    (h : (POST env reqForm oracle n1 r1 n2 r2).1.status = 200) :
    ∃ gw cidI cidM,
      mustEnv env "FILEBASE_GATEWAY" = Except.ok gw ∧ cidI ≠ "" ∧ cidM ≠ "" ∧
      (POST env reqForm oracle n1 r1 n2 r2).1.body =
        RespBody.ok ("ipfs://" ++ cidM) (gw ++ "/" ++ cidM)
          ("ipfs://" ++ cidI) (gw ++ "/" ++ cidI) := by
  obtain ⟨gw, form, file, cidI, cidM, evs, evs2, hse, hform, hfile, hcI, hcM, heq⟩ :=
    success_inversion env reqForm oracle n1 r1 n2 r2 h
  exact ⟨gw, cidI, cidM, stageEnv_gateway hse, hcI, hcM, by rw [heq]⟩

theorem success_urls_well_formed_witness :
    ∃ gw cidI cidM,
      mustEnv envW "FILEBASE_GATEWAY" = Except.ok gw ∧ cidI ≠ "" ∧ cidM ≠ "" ∧
      (POST envW (Except.ok formW) oracleW 1 "r" 2 "s").1.body =
        RespBody.ok ("ipfs://" ++ cidM) (gw ++ "/" ++ cidM)
          ("ipfs://" ++ cidI) (gw ++ "/" ++ cidI) :=
  success_urls_well_formed envW (Except.ok formW) oracleW 1 "r" 2 "s" (by decide)

/-- Claim C7 counterexample: with `FILEBASE_ACCESS_KEY` absent, loading the
route module still succeeds — the process does not fail at start as the
claim states.  The named-key failure only surfaces when a request invokes
the handler, which then answers 500 naming the key. -/
theorem env_check_deferred_to_request_cex :
    routeModuleInit envNone = Except.ok () ∧
    (POST envNone (Except.error "form never parsed") oracleW 0 "" 0 "").1 =
      ⟨500, RespBody.err "Missing FILEBASE_ACCESS_KEY in .env.local" none⟩ :=
  ⟨rfl, by decide⟩

/-- Claim C7 amended: each required environment value is validated at the
start of every request, in source order, and a missing (or empty) value
makes that request fail with a 500 JSON body naming the key
("Missing (key) in .env.local") before any store call; but the check is
per-request at first use — module initialization reads no environment value
and never fails. -/
theorem env_missing_named_key_per_request
    (env : String → Option String) (reqForm : Except String UploadForm)
    (oracle : S3Oracle) (n1 : Nat) (r1 : String) (n2 : Nat) (r2 : String) :
    routeModuleInit env = Except.ok () ∧
    (isTruthy (env "FILEBASE_ACCESS_KEY") = false →
      POST env reqForm oracle n1 r1 n2 r2 =
        (⟨500, RespBody.err "Missing FILEBASE_ACCESS_KEY in .env.local" none⟩, [])) ∧
    (isTruthy (env "FILEBASE_ACCESS_KEY") = true →
     isTruthy (env "FILEBASE_SECRET_KEY") = false →
      POST env reqForm oracle n1 r1 n2 r2 =
        (⟨500, RespBody.err "Missing FILEBASE_SECRET_KEY in .env.local" none⟩, [])) ∧
    (isTruthy (env "FILEBASE_ACCESS_KEY") = true →
     isTruthy (env "FILEBASE_SECRET_KEY") = true →
     isTruthy (env "FILEBASE_BUCKET") = false →
      POST env reqForm oracle n1 r1 n2 r2 =
        (⟨500, RespBody.err "Missing FILEBASE_BUCKET in .env.local" none⟩, [])) ∧
    (isTruthy (env "FILEBASE_ACCESS_KEY") = true →
     isTruthy (env "FILEBASE_SECRET_KEY") = true →
     isTruthy (env "FILEBASE_BUCKET") = true →
     isTruthy (env "FILEBASE_S3_ENDPOINT") = false →
      POST env reqForm oracle n1 r1 n2 r2 =
        (⟨500, RespBody.err "Missing FILEBASE_S3_ENDPOINT in .env.local" none⟩, [])) ∧
    (isTruthy (env "FILEBASE_ACCESS_KEY") = true →
     isTruthy (env "FILEBASE_SECRET_KEY") = true →
     isTruthy (env "FILEBASE_BUCKET") = true →
     isTruthy (env "FILEBASE_S3_ENDPOINT") = true →
     isTruthy (env "FILEBASE_GATEWAY") = false →
      POST env reqForm oracle n1 r1 n2 r2 =
        (⟨500, RespBody.err "Missing FILEBASE_GATEWAY in .env.local" none⟩, [])) := by
  refine ⟨rfl, ?_, ?_, ?_, ?_, ?_⟩
  · intro h1
    simp [POST, stageEnv, mustEnv_error_of_falsy h1, catchResp]
  · intro h1 h2
    obtain ⟨v1, hv1⟩ := mustEnv_ok_of_truthy h1
    simp [POST, stageEnv, hv1, mustEnv_error_of_falsy h2, catchResp]
  · intro h1 h2 h3
    obtain ⟨v1, hv1⟩ := mustEnv_ok_of_truthy h1
    obtain ⟨v2, hv2⟩ := mustEnv_ok_of_truthy h2
    simp [POST, stageEnv, hv1, hv2, mustEnv_error_of_falsy h3, catchResp]
  · intro h1 h2 h3 h4
    obtain ⟨v1, hv1⟩ := mustEnv_ok_of_truthy h1
    obtain ⟨v2, hv2⟩ := mustEnv_ok_of_truthy h2
    obtain ⟨v3, hv3⟩ := mustEnv_ok_of_truthy h3
    simp [POST, stageEnv, hv1, hv2, hv3, mustEnv_error_of_falsy h4, catchResp]
  · intro h1 h2 h3 h4 h5
    obtain ⟨v1, hv1⟩ := mustEnv_ok_of_truthy h1
    obtain ⟨v2, hv2⟩ := mustEnv_ok_of_truthy h2
    obtain ⟨v3, hv3⟩ := mustEnv_ok_of_truthy h3
    obtain ⟨v4, hv4⟩ := mustEnv_ok_of_truthy h4
    simp [POST, stageEnv, hv1, hv2, hv3, hv4, mustEnv_error_of_falsy h5, catchResp]

/-- Claim C9: a click on the mint button while a workflow is in flight
(busy flag set) is a no-op — the button is disabled, so the state is
unchanged and no upload request and no mint call is issued. -/
theorem busy_mint_click_is_noop
    (wallet : WalletState) (metaplexReady : Bool)
    (uploadOutcome : Except String UploadOk) (mintOutcome : Except String String)
    (st : PageState) (hbusy : st.busy = true) :
    clickMint wallet metaplexReady uploadOutcome mintOutcome st = (st, []) := by
  simp [clickMint, hbusy]

theorem busy_mint_click_is_noop_witness :
    clickMint ⟨true, true⟩ true (Except.ok ⟨"ipfs://m", none, none, none⟩)
      (Except.ok "addr") pageBusy = (pageBusy, []) :=
  busy_mint_click_is_noop ⟨true, true⟩ true (Except.ok ⟨"ipfs://m", none, none, none⟩)
    (Except.ok "addr") pageBusy rfl


lemma truthyVal_of_truthy {o : Option String} (h : isTruthy o = true) :
    ∃ c, truthyVal o = some c ∧ c ≠ "" := by
  cases o with
  | none => simp [isTruthy] at h
  | some s =>
    simp [isTruthy] at h
    exact ⟨s, by simp [truthyVal, h], h⟩

lemma head_iff_img_put_failed (oracle : S3Oracle) (key kI : String) (vI : StoreValue)
    (ctI msg : String) (hputI : oracle.put kI vI ctI = Except.error msg) :
    (S3Event.head key ∈ [S3Event.put kI vI ctI]) ↔
      ∃ v ct r, S3Event.put key v ct ∈ [S3Event.put kI vI ctI] ∧
        oracle.put key v ct = Except.ok r ∧ isTruthy (headerCid r.httpHeaders) = false := by
  constructor
  · intro h
    simp at h
  · rintro ⟨v, ct, r, hm, hok, hf⟩
    simp at hm
    obtain ⟨rfl, rfl, rfl⟩ := hm
    rw [hputI] at hok
    simp at hok

lemma head_iff_img_fallback (oracle : S3Oracle) (key kI : String) (vI : StoreValue)
    (ctI : String) (rI : PutResp)
    (hputI : oracle.put kI vI ctI = Except.ok rI)
    (hbI : isTruthy (headerCid rI.httpHeaders) = false) :
    (S3Event.head key ∈ [S3Event.put kI vI ctI, S3Event.head kI]) ↔
      ∃ v ct r, S3Event.put key v ct ∈ [S3Event.put kI vI ctI, S3Event.head kI] ∧
        oracle.put key v ct = Except.ok r ∧ isTruthy (headerCid r.httpHeaders) = false := by
  constructor
  · intro h
    simp at h
    subst h
    exact ⟨vI, ctI, rI, by simp, hputI, hbI⟩
  · rintro ⟨v, ct, r, hm, hok, hf⟩
    simp at hm
    obtain ⟨rfl, rfl, rfl⟩ := hm
    simp

lemma head_iff_meta_failed_fb (oracle : S3Oracle) (key kI kM : String)
    (vI vM : StoreValue) (ctI ctM : String) (rI : PutResp) (msg : String)
    (hputI : oracle.put kI vI ctI = Except.ok rI)
    (hbI : isTruthy (headerCid rI.httpHeaders) = false)
    (hputM : oracle.put kM vM ctM = Except.error msg) :
    (S3Event.head key ∈
        [S3Event.put kI vI ctI, S3Event.head kI, S3Event.put kM vM ctM]) ↔
      ∃ v ct r, S3Event.put key v ct ∈
          [S3Event.put kI vI ctI, S3Event.head kI, S3Event.put kM vM ctM] ∧
        oracle.put key v ct = Except.ok r ∧ isTruthy (headerCid r.httpHeaders) = false := by
  constructor
  · intro h
    simp at h
    subst h
    exact ⟨vI, ctI, rI, by simp, hputI, hbI⟩
  · rintro ⟨v, ct, r, hm, hok, hf⟩
    simp at hm
    rcases hm with ⟨rfl, rfl, rfl⟩ | ⟨rfl, rfl, rfl⟩
    · simp
    · rw [hputM] at hok
      simp at hok

lemma head_iff_meta_failed_hd (oracle : S3Oracle) (key kI kM : String)
    (vI vM : StoreValue) (ctI ctM : String) (rI : PutResp) (msg : String)
    (hputI : oracle.put kI vI ctI = Except.ok rI)
    (hbI : isTruthy (headerCid rI.httpHeaders) = true)
    (hputM : oracle.put kM vM ctM = Except.error msg) :
    (S3Event.head key ∈ [S3Event.put kI vI ctI, S3Event.put kM vM ctM]) ↔
      ∃ v ct r, S3Event.put key v ct ∈ [S3Event.put kI vI ctI, S3Event.put kM vM ctM] ∧
        oracle.put key v ct = Except.ok r ∧ isTruthy (headerCid r.httpHeaders) = false := by
  constructor
  · intro h
    simp at h
  · rintro ⟨v, ct, r, hm, hok, hf⟩
    simp at hm
    rcases hm with ⟨rfl, rfl, rfl⟩ | ⟨rfl, rfl, rfl⟩
    · rw [hputI] at hok
      injection hok with e
      subst e
      rw [hf] at hbI
      exact Bool.noConfusion hbI
    · rw [hputM] at hok
      simp at hok

lemma head_iff_both_fb_fb (oracle : S3Oracle) (key kI kM : String)
    (vI vM : StoreValue) (ctI ctM : String) (rI rM : PutResp)
    (hputI : oracle.put kI vI ctI = Except.ok rI)
    (hbI : isTruthy (headerCid rI.httpHeaders) = false)
    (hputM : oracle.put kM vM ctM = Except.ok rM)
    (hbM : isTruthy (headerCid rM.httpHeaders) = false) :
    (S3Event.head key ∈
        [S3Event.put kI vI ctI, S3Event.head kI, S3Event.put kM vM ctM, S3Event.head kM]) ↔
      ∃ v ct r, S3Event.put key v ct ∈
          [S3Event.put kI vI ctI, S3Event.head kI, S3Event.put kM vM ctM, S3Event.head kM] ∧
        oracle.put key v ct = Except.ok r ∧ isTruthy (headerCid r.httpHeaders) = false := by
  constructor
  · intro h
    simp at h
    rcases h with rfl | rfl
    · exact ⟨vI, ctI, rI, by simp, hputI, hbI⟩
    · exact ⟨vM, ctM, rM, by simp, hputM, hbM⟩
  · rintro ⟨v, ct, r, hm, hok, hf⟩
    simp at hm
    rcases hm with ⟨rfl, rfl, rfl⟩ | ⟨rfl, rfl, rfl⟩ <;> simp

lemma head_iff_both_fb_hd (oracle : S3Oracle) (key kI kM : String)
    (vI vM : StoreValue) (ctI ctM : String) (rI rM : PutResp)
    (hputI : oracle.put kI vI ctI = Except.ok rI)
    (hbI : isTruthy (headerCid rI.httpHeaders) = false)
    (hputM : oracle.put kM vM ctM = Except.ok rM)
    (hbM : isTruthy (headerCid rM.httpHeaders) = true) :
    (S3Event.head key ∈
        [S3Event.put kI vI ctI, S3Event.head kI, S3Event.put kM vM ctM]) ↔
      ∃ v ct r, S3Event.put key v ct ∈
          [S3Event.put kI vI ctI, S3Event.head kI, S3Event.put kM vM ctM] ∧
        oracle.put key v ct = Except.ok r ∧ isTruthy (headerCid r.httpHeaders) = false := by
  constructor
  · intro h
    simp at h
    subst h
    exact ⟨vI, ctI, rI, by simp, hputI, hbI⟩
  · rintro ⟨v, ct, r, hm, hok, hf⟩
    simp at hm
    rcases hm with ⟨rfl, rfl, rfl⟩ | ⟨rfl, rfl, rfl⟩
    · simp
    · rw [hputM] at hok
      injection hok with e
      subst e
      rw [hf] at hbM
      exact Bool.noConfusion hbM

lemma head_iff_both_hd_fb (oracle : S3Oracle) (key kI kM : String)
    (vI vM : StoreValue) (ctI ctM : String) (rI rM : PutResp)
    (hputI : oracle.put kI vI ctI = Except.ok rI)
    (hbI : isTruthy (headerCid rI.httpHeaders) = true)
    (hputM : oracle.put kM vM ctM = Except.ok rM)
    (hbM : isTruthy (headerCid rM.httpHeaders) = false) :
    (S3Event.head key ∈
        [S3Event.put kI vI ctI, S3Event.put kM vM ctM, S3Event.head kM]) ↔
      ∃ v ct r, S3Event.put key v ct ∈
          [S3Event.put kI vI ctI, S3Event.put kM vM ctM, S3Event.head kM] ∧
        oracle.put key v ct = Except.ok r ∧ isTruthy (headerCid r.httpHeaders) = false := by
  constructor
  · intro h
    simp at h
    subst h
    exact ⟨vM, ctM, rM, by simp, hputM, hbM⟩
  · rintro ⟨v, ct, r, hm, hok, hf⟩
    simp at hm
    rcases hm with ⟨rfl, rfl, rfl⟩ | ⟨rfl, rfl, rfl⟩
    · rw [hputI] at hok
      injection hok with e
      subst e
      rw [hf] at hbI
      exact Bool.noConfusion hbI
    · simp

lemma head_iff_both_hd_hd (oracle : S3Oracle) (key kI kM : String)
    (vI vM : StoreValue) (ctI ctM : String) (rI rM : PutResp)
    (hputI : oracle.put kI vI ctI = Except.ok rI)
    (hbI : isTruthy (headerCid rI.httpHeaders) = true)
    (hputM : oracle.put kM vM ctM = Except.ok rM)
    (hbM : isTruthy (headerCid rM.httpHeaders) = true) :
    (S3Event.head key ∈ [S3Event.put kI vI ctI, S3Event.put kM vM ctM]) ↔
      ∃ v ct r, S3Event.put key v ct ∈ [S3Event.put kI vI ctI, S3Event.put kM vM ctM] ∧
        oracle.put key v ct = Except.ok r ∧ isTruthy (headerCid r.httpHeaders) = false := by
  constructor
  · intro h
    simp at h
  · rintro ⟨v, ct, r, hm, hok, hf⟩
    simp at hm
    rcases hm with ⟨rfl, rfl, rfl⟩ | ⟨rfl, rfl, rfl⟩
    · rw [hputI] at hok
      injection hok with e
      subst e
      rw [hf] at hbI
      exact Bool.noConfusion hbI
    · rw [hputM] at hok
      injection hok with e
      subst e
      rw [hf] at hbM
      exact Bool.noConfusion hbM



/-- Claim C3: the route resolves both the image's and the metadata object's
content identifier by the same two-tier strategy, in the same order.  First
conjunct: over any run, a HeadObject for a key is issued exactly when that
key was put successfully and the put response carried no truthy CID header.
Second conjunct: the shared resolver inspects the header first — a truthy
header is answered with no store call at all, and only a falsy header makes
it issue the single HeadObject for the same key and extract the identifier
from that response via `getCidByHead`. -/
theorem cid_two_tier
    (env : String → Option String) (reqForm : Except String UploadForm)
    (oracle : S3Oracle) (n1 : Nat) (r1 : String) (n2 : Nat) (r2 : String) :
    (∀ key : String,
      S3Event.head key ∈ (POST env reqForm oracle n1 r1 n2 r2).2 ↔
        ∃ v ct r, S3Event.put key v ct ∈ (POST env reqForm oracle n1 r1 n2 r2).2 ∧
          oracle.put key v ct = Except.ok r ∧
          isTruthy (headerCid r.httpHeaders) = false) ∧
    (∀ (key : String) (hdrs : String → Option String),
      (isTruthy (headerCid hdrs) = true →
        resolveCid oracle key hdrs = (Except.ok (headerCid hdrs), [])) ∧
      (isTruthy (headerCid hdrs) = false →
        (resolveCid oracle key hdrs).2 = [S3Event.head key] ∧
        ∀ hr, oracle.head key = Except.ok hr →
          resolveCid oracle key hdrs = (Except.ok (getCidByHead hr), [S3Event.head key]))) := by
  constructor
  · intro key
    rcases hse : stageEnv env with msg | gw
    · have htr : (POST env reqForm oracle n1 r1 n2 r2).2 = [] := by simp [POST, hse]
      rw [htr]
      simp
    rcases reqForm with msg | form
    · have htr : (POST env (Except.error msg) oracle n1 r1 n2 r2).2 = [] := by simp [POST, hse]
      rw [htr]
      simp
    rcases hfile : form.file with _ | file
    · have htr : (POST env (Except.ok form) oracle n1 r1 n2 r2).2 = [] := by
        simp [POST, hse, hfile]
      rw [htr]
      simp
    rcases htype : jsStartsWith file.type "image/" with _ | _
    · have htr : (POST env (Except.ok form) oracle n1 r1 n2 r2).2 = [] := by
        simp [POST, hse, hfile, htype]
      rw [htr]
      simp
    rcases hput : oracle.put (randomKey "images" file.name n1 r1) (StoreValue.raw file.bytes)
        file.type with msg | putImg
    · have htr : (POST env (Except.ok form) oracle n1 r1 n2 r2).2 =
          [S3Event.put (randomKey "images" file.name n1 r1) (StoreValue.raw file.bytes)
            file.type] := by
        simp [POST, processUpload, hse, hfile, htype, hput]
      rw [htr]
      exact head_iff_img_put_failed oracle key _ _ _ msg hput
    rcases hh1 : isTruthy (headerCid putImg.httpHeaders) with _ | _
    · -- no truthy CID header on the image put: fallback HeadObject
      rcases hhead1 : oracle.head (randomKey "images" file.name n1 r1) with msg | hobj
      · have hres : resolveCid oracle (randomKey "images" file.name n1 r1) putImg.httpHeaders
            = (Except.error msg, [S3Event.head (randomKey "images" file.name n1 r1)]) := by
          simp [resolveCid, hh1, hhead1]
        have htr : (POST env (Except.ok form) oracle n1 r1 n2 r2).2 =
            [S3Event.put (randomKey "images" file.name n1 r1) (StoreValue.raw file.bytes)
              file.type, S3Event.head (randomKey "images" file.name n1 r1)] := by
          simp [POST, processUpload, hse, hfile, htype, hput, hres]
        rw [htr]
        exact head_iff_img_fallback oracle key _ _ _ putImg hput hh1
      · have hres : resolveCid oracle (randomKey "images" file.name n1 r1) putImg.httpHeaders
            = (Except.ok (getCidByHead hobj),
               [S3Event.head (randomKey "images" file.name n1 r1)]) := by
          simp [resolveCid, hh1, hhead1]
        rcases hc : truthyVal (getCidByHead hobj) with _ | cid
        · have htr : (POST env (Except.ok form) oracle n1 r1 n2 r2).2 =
              [S3Event.put (randomKey "images" file.name n1 r1) (StoreValue.raw file.bytes)
                file.type, S3Event.head (randomKey "images" file.name n1 r1)] := by
            simp [POST, processUpload, hse, hfile, htype, hput, hres, hc]
          rw [htr]
          exact head_iff_img_fallback oracle key _ _ _ putImg hput hh1
        · rcases hputm : oracle.put (randomKey "metadata" "metadata.json" n2 r2)
              (StoreValue.jsonDoc (mkDoc (jsOrStr form.nameField "My NFT")
                (jsOrStr form.descField "") ("ipfs://" ++ cid) file.type))
              "application/json" with msg | putMeta
          · have htr : (POST env (Except.ok form) oracle n1 r1 n2 r2).2 =
                [S3Event.put (randomKey "images" file.name n1 r1) (StoreValue.raw file.bytes)
                  file.type, S3Event.head (randomKey "images" file.name n1 r1),
                 S3Event.put (randomKey "metadata" "metadata.json" n2 r2)
                   (StoreValue.jsonDoc (mkDoc (jsOrStr form.nameField "My NFT")
                     (jsOrStr form.descField "") ("ipfs://" ++ cid) file.type))
                   "application/json"] := by
              simp [POST, processUpload, hse, hfile, htype, hput, hres, hc, hputm]
            rw [htr]
            exact head_iff_meta_failed_fb oracle key _ _ _ _ _ _ putImg msg hput hh1 hputm
          rcases hh2 : isTruthy (headerCid putMeta.httpHeaders) with _ | _
          · rcases hhead2 : oracle.head (randomKey "metadata" "metadata.json" n2 r2)
                with msg | hobj2
            · have hres2 : resolveCid oracle (randomKey "metadata" "metadata.json" n2 r2)
                  putMeta.httpHeaders
                  = (Except.error msg,
                     [S3Event.head (randomKey "metadata" "metadata.json" n2 r2)]) := by
                simp [resolveCid, hh2, hhead2]
              have htr : (POST env (Except.ok form) oracle n1 r1 n2 r2).2 =
                  [S3Event.put (randomKey "images" file.name n1 r1) (StoreValue.raw file.bytes)
                    file.type, S3Event.head (randomKey "images" file.name n1 r1),
                   S3Event.put (randomKey "metadata" "metadata.json" n2 r2)
                     (StoreValue.jsonDoc (mkDoc (jsOrStr form.nameField "My NFT")
                       (jsOrStr form.descField "") ("ipfs://" ++ cid) file.type))
                     "application/json",
                   S3Event.head (randomKey "metadata" "metadata.json" n2 r2)] := by
                simp [POST, processUpload, hse, hfile, htype, hput, hres, hc, hputm, hres2]
              rw [htr]
              exact head_iff_both_fb_fb oracle key _ _ _ _ _ _ putImg putMeta hput hh1 hputm hh2
            · have hres2 : resolveCid oracle (randomKey "metadata" "metadata.json" n2 r2)
                  putMeta.httpHeaders
                  = (Except.ok (getCidByHead hobj2),
                     [S3Event.head (randomKey "metadata" "metadata.json" n2 r2)]) := by
                simp [resolveCid, hh2, hhead2]
              rcases hc2 : truthyVal (getCidByHead hobj2) with _ | mcid
              all_goals
                have htr : (POST env (Except.ok form) oracle n1 r1 n2 r2).2 =
                    [S3Event.put (randomKey "images" file.name n1 r1) (StoreValue.raw file.bytes)
                      file.type, S3Event.head (randomKey "images" file.name n1 r1),
                     S3Event.put (randomKey "metadata" "metadata.json" n2 r2)
                       (StoreValue.jsonDoc (mkDoc (jsOrStr form.nameField "My NFT")
                         (jsOrStr form.descField "") ("ipfs://" ++ cid) file.type))
                       "application/json",
                     S3Event.head (randomKey "metadata" "metadata.json" n2 r2)] := by
                  simp [POST, processUpload, hse, hfile, htype, hput, hres, hc, hputm, hres2, hc2]
              all_goals rw [htr]
              all_goals exact head_iff_both_fb_fb oracle key _ _ _ _ _ _ putImg putMeta hput hh1 hputm hh2
          · have hres2 : resolveCid oracle (randomKey "metadata" "metadata.json" n2 r2)
                putMeta.httpHeaders
                = (Except.ok (headerCid putMeta.httpHeaders), []) := by
              simp [resolveCid, hh2]
            obtain ⟨mcid, hc2, -⟩ := truthyVal_of_truthy hh2
            have htr : (POST env (Except.ok form) oracle n1 r1 n2 r2).2 =
                [S3Event.put (randomKey "images" file.name n1 r1) (StoreValue.raw file.bytes)
                  file.type, S3Event.head (randomKey "images" file.name n1 r1),
                 S3Event.put (randomKey "metadata" "metadata.json" n2 r2)
                   (StoreValue.jsonDoc (mkDoc (jsOrStr form.nameField "My NFT")
                     (jsOrStr form.descField "") ("ipfs://" ++ cid) file.type))
                   "application/json"] := by
              simp [POST, processUpload, hse, hfile, htype, hput, hres, hc, hputm, hres2, hc2]
            rw [htr]
            exact head_iff_both_fb_hd oracle key _ _ _ _ _ _ putImg putMeta hput hh1 hputm hh2
    · -- truthy CID header on the image put: no HeadObject for the image
      have hres : resolveCid oracle (randomKey "images" file.name n1 r1) putImg.httpHeaders
          = (Except.ok (headerCid putImg.httpHeaders), []) := by
        simp [resolveCid, hh1]
      obtain ⟨cid, hc, -⟩ := truthyVal_of_truthy hh1
      rcases hputm : oracle.put (randomKey "metadata" "metadata.json" n2 r2)
          (StoreValue.jsonDoc (mkDoc (jsOrStr form.nameField "My NFT")
            (jsOrStr form.descField "") ("ipfs://" ++ cid) file.type))
          "application/json" with msg | putMeta
      · have htr : (POST env (Except.ok form) oracle n1 r1 n2 r2).2 =
            [S3Event.put (randomKey "images" file.name n1 r1) (StoreValue.raw file.bytes)
              file.type,
             S3Event.put (randomKey "metadata" "metadata.json" n2 r2)
               (StoreValue.jsonDoc (mkDoc (jsOrStr form.nameField "My NFT")
                 (jsOrStr form.descField "") ("ipfs://" ++ cid) file.type))
               "application/json"] := by
          simp [POST, processUpload, hse, hfile, htype, hput, hres, hc, hputm]
        rw [htr]
        exact head_iff_meta_failed_hd oracle key _ _ _ _ _ _ putImg msg hput hh1 hputm
      rcases hh2 : isTruthy (headerCid putMeta.httpHeaders) with _ | _
      · rcases hhead2 : oracle.head (randomKey "metadata" "metadata.json" n2 r2)
            with msg | hobj2
        · have hres2 : resolveCid oracle (randomKey "metadata" "metadata.json" n2 r2)
              putMeta.httpHeaders
              = (Except.error msg,
                 [S3Event.head (randomKey "metadata" "metadata.json" n2 r2)]) := by
            simp [resolveCid, hh2, hhead2]
          have htr : (POST env (Except.ok form) oracle n1 r1 n2 r2).2 =
              [S3Event.put (randomKey "images" file.name n1 r1) (StoreValue.raw file.bytes)
                file.type,
               S3Event.put (randomKey "metadata" "metadata.json" n2 r2)
                 (StoreValue.jsonDoc (mkDoc (jsOrStr form.nameField "My NFT")
                   (jsOrStr form.descField "") ("ipfs://" ++ cid) file.type))
                 "application/json",
               S3Event.head (randomKey "metadata" "metadata.json" n2 r2)] := by
            simp [POST, processUpload, hse, hfile, htype, hput, hres, hc, hputm, hres2]
          rw [htr]
          exact head_iff_both_hd_fb oracle key _ _ _ _ _ _ putImg putMeta hput hh1 hputm hh2
        · have hres2 : resolveCid oracle (randomKey "metadata" "metadata.json" n2 r2)
              putMeta.httpHeaders
              = (Except.ok (getCidByHead hobj2),
                 [S3Event.head (randomKey "metadata" "metadata.json" n2 r2)]) := by
            simp [resolveCid, hh2, hhead2]
          rcases hc2 : truthyVal (getCidByHead hobj2) with _ | mcid
          all_goals
            have htr : (POST env (Except.ok form) oracle n1 r1 n2 r2).2 =
                [S3Event.put (randomKey "images" file.name n1 r1) (StoreValue.raw file.bytes)
                  file.type,
                 S3Event.put (randomKey "metadata" "metadata.json" n2 r2)
                   (StoreValue.jsonDoc (mkDoc (jsOrStr form.nameField "My NFT")
                     (jsOrStr form.descField "") ("ipfs://" ++ cid) file.type))
                   "application/json",
                 S3Event.head (randomKey "metadata" "metadata.json" n2 r2)] := by
              simp [POST, processUpload, hse, hfile, htype, hput, hres, hc, hputm, hres2, hc2]
          all_goals rw [htr]
          all_goals exact head_iff_both_hd_fb oracle key _ _ _ _ _ _ putImg putMeta hput hh1 hputm hh2
      · have hres2 : resolveCid oracle (randomKey "metadata" "metadata.json" n2 r2)
            putMeta.httpHeaders
            = (Except.ok (headerCid putMeta.httpHeaders), []) := by
          simp [resolveCid, hh2]
        obtain ⟨mcid, hc2, -⟩ := truthyVal_of_truthy hh2
        have htr : (POST env (Except.ok form) oracle n1 r1 n2 r2).2 =
            [S3Event.put (randomKey "images" file.name n1 r1) (StoreValue.raw file.bytes)
              file.type,
             S3Event.put (randomKey "metadata" "metadata.json" n2 r2)
               (StoreValue.jsonDoc (mkDoc (jsOrStr form.nameField "My NFT")
                 (jsOrStr form.descField "") ("ipfs://" ++ cid) file.type))
               "application/json"] := by
          simp [POST, processUpload, hse, hfile, htype, hput, hres, hc, hputm, hres2, hc2]
        rw [htr]
        exact head_iff_both_hd_hd oracle key _ _ _ _ _ _ putImg putMeta hput hh1 hputm hh2
  · intro key hdrs
    constructor
    · intro ht
      simp [resolveCid, ht]
    · intro hf
      refine ⟨?_, ?_⟩
      · rw [resolveCid_snd_eq, hf]
        simp
      · intro hr hh
        simp [resolveCid, hf, hh]

/-- Claim C8: the handler is total and never lets an exception escape as
such — whatever the environment, the form-parse outcome (including a parse
throw) and the store oracle's answers (including thrown sends), `POST`
returns either 200 with the four-URL body, 400 with an error body, or 500
with an error body; every non-200 answer is a JSON `error` object. -/
theorem post_always_json
    (env : String → Option String) (reqForm : Except String UploadForm)
    (oracle : S3Oracle) (n1 : Nat) (r1 : String) (n2 : Nat) (r2 : String) :
    (∃ a b c d, (POST env reqForm oracle n1 r1 n2 r2).1 = ⟨200, RespBody.ok a b c d⟩) ∨
    (∃ m, (POST env reqForm oracle n1 r1 n2 r2).1 = ⟨400, RespBody.err m none⟩) ∨
    (∃ m hh, (POST env reqForm oracle n1 r1 n2 r2).1 = ⟨500, RespBody.err m hh⟩) := by
  rcases hse : stageEnv env with msg | gw
  · refine Or.inr (Or.inr ⟨if msg = "" then "Upload failed" else msg, none, ?_⟩)
    simp [POST, hse, catchResp]
  rcases reqForm with msg | form
  · refine Or.inr (Or.inr ⟨if msg = "" then "Upload failed" else msg, none, ?_⟩)
    simp [POST, hse, catchResp]
  rcases hfile : form.file with _ | file
  · exact Or.inr (Or.inl ⟨"File missing", by simp [POST, hse, hfile]⟩)
  rcases htype : jsStartsWith file.type "image/" with _ | _
  · exact Or.inr (Or.inl ⟨"Only image files are allowed", by simp [POST, hse, hfile, htype]⟩)
  rcases hput : oracle.put (randomKey "images" file.name n1 r1) (StoreValue.raw file.bytes)
      file.type with msg | putImg
  · refine Or.inr (Or.inr ⟨if msg = "" then "Upload failed" else msg, none, ?_⟩)
    simp [POST, processUpload, hse, hfile, htype, hput, catchResp]
  rcases hres : resolveCid oracle (randomKey "images" file.name n1 r1) putImg.httpHeaders
      with ⟨msg | c, evs⟩
  · refine Or.inr (Or.inr ⟨if msg = "" then "Upload failed" else msg, none, ?_⟩)
    simp [POST, processUpload, hse, hfile, htype, hput, hres, catchResp]
  rcases hc : truthyVal c with _ | cid
  · refine Or.inr (Or.inr ⟨imgCidMissingError, some imgCidMissingHint, ?_⟩)
    simp [POST, processUpload, hse, hfile, htype, hput, hres, hc]
  rcases hputm : oracle.put (randomKey "metadata" "metadata.json" n2 r2)
      (StoreValue.jsonDoc (mkDoc (jsOrStr form.nameField "My NFT") (jsOrStr form.descField "")
        ("ipfs://" ++ cid) file.type)) "application/json" with msg | putMeta
  · refine Or.inr (Or.inr ⟨if msg = "" then "Upload failed" else msg, none, ?_⟩)
    simp [POST, processUpload, hse, hfile, htype, hput, hres, hc, hputm, catchResp]
  rcases hres2 : resolveCid oracle (randomKey "metadata" "metadata.json" n2 r2)
      putMeta.httpHeaders with ⟨msg | c2, evs2⟩
  · refine Or.inr (Or.inr ⟨if msg = "" then "Upload failed" else msg, none, ?_⟩)
    simp [POST, processUpload, hse, hfile, htype, hput, hres, hc, hputm, hres2, catchResp]
  rcases hc2 : truthyVal c2 with _ | mcid
  · refine Or.inr (Or.inr ⟨metaCidMissingError, none, ?_⟩)
    simp [POST, processUpload, hse, hfile, htype, hput, hres, hc, hputm, hres2, hc2]
  · refine Or.inl ⟨"ipfs://" ++ mcid, gw ++ "/" ++ mcid, "ipfs://" ++ cid, gw ++ "/" ++ cid, ?_⟩
    simp [POST, processUpload, hse, hfile, htype, hput, hres, hc, hputm, hres2, hc2]

/-- Claim C10: every metadata document the route ever writes carries
`name = (name field) || "My NFT"` and `description = (description field)
|| ""` — the default display name replaces an absent field and an empty
string alike (any falsy value), the description defaults to empty — so the
persisted document's name is never the empty string. -/
theorem metadata_name_never_empty
    (env : String → Option String) (form : UploadForm) (oracle : S3Oracle)
    (n1 : Nat) (r1 : String) (n2 : Nat) (r2 : String)
    (k ct : String) (doc : MetadataDoc)
    (hmem : S3Event.put k (StoreValue.jsonDoc doc) ct ∈
      (POST env (Except.ok form) oracle n1 r1 n2 r2).2) :
    doc.name = jsOrStr form.nameField "My NFT" ∧
    doc.description = jsOrStr form.descField "" ∧
    ((form.nameField = none ∨ form.nameField = some "") → doc.name = "My NFT") ∧
    ((form.descField = none ∨ form.descField = some "") → doc.description = "") ∧
    doc.name ≠ "" := by
  have hdoc : ∃ uri ft,
      doc = mkDoc (jsOrStr form.nameField "My NFT") (jsOrStr form.descField "") uri ft := by
    rcases hse : stageEnv env with msg | gw
    · simp [POST, hse, catchResp] at hmem
    rcases hfile : form.file with _ | file
    · simp [POST, hse, hfile] at hmem
    rcases htype : jsStartsWith file.type "image/" with _ | _
    · simp [POST, hse, hfile, htype] at hmem
    rcases hput : oracle.put (randomKey "images" file.name n1 r1) (StoreValue.raw file.bytes)
        file.type with msg | putImg
    · simp [POST, processUpload, hse, hfile, htype, hput] at hmem
    rcases hres : resolveCid oracle (randomKey "images" file.name n1 r1) putImg.httpHeaders
        with ⟨rc, evs⟩
    have hnp : ∀ v' ct', S3Event.put k v' ct' ∉ evs := by
      intro v' ct' hm
      have h0 := resolveCid_no_put oracle (randomKey "images" file.name n1 r1)
        putImg.httpHeaders k v' ct'
      rw [hres] at h0
      exact h0 hm
    rcases rc with msg | c
    · simp [POST, processUpload, hse, hfile, htype, hput, hres, hnp] at hmem
    rcases hc : truthyVal c with _ | cid
    · simp [POST, processUpload, hse, hfile, htype, hput, hres, hc, hnp] at hmem
    rcases hputm : oracle.put (randomKey "metadata" "metadata.json" n2 r2)
        (StoreValue.jsonDoc (mkDoc (jsOrStr form.nameField "My NFT") (jsOrStr form.descField "")
          ("ipfs://" ++ cid) file.type)) "application/json" with msg | putMeta
    · simp [POST, processUpload, hse, hfile, htype, hput, hres, hc, hputm, hnp] at hmem
      exact ⟨_, _, hmem.2.1⟩
    rcases hres2 : resolveCid oracle (randomKey "metadata" "metadata.json" n2 r2)
        putMeta.httpHeaders with ⟨rc2, evs2⟩
    have hnp2 : ∀ v' ct', S3Event.put k v' ct' ∉ evs2 := by
      intro v' ct' hm
      have h0 := resolveCid_no_put oracle (randomKey "metadata" "metadata.json" n2 r2)
        putMeta.httpHeaders k v' ct'
      rw [hres2] at h0
      exact h0 hm
    rcases rc2 with msg | c2
    · simp [POST, processUpload, hse, hfile, htype, hput, hres, hc, hputm, hres2,
        hnp, hnp2] at hmem
      exact ⟨_, _, hmem.2.1⟩
    rcases hc2 : truthyVal c2 with _ | mcid
    · simp [POST, processUpload, hse, hfile, htype, hput, hres, hc, hputm, hres2, hc2,
        hnp, hnp2] at hmem
      exact ⟨_, _, hmem.2.1⟩
    · simp [POST, processUpload, hse, hfile, htype, hput, hres, hc, hputm, hres2, hc2,
        hnp, hnp2] at hmem
      exact ⟨_, _, hmem.2.1⟩
  obtain ⟨uri, ft, rfl⟩ := hdoc
  refine ⟨rfl, rfl, ?_, ?_, jsOrStr_ne_empty (by decide)⟩
  · rintro (h | h) <;> simp [h, jsOrStr, mkDoc]
  · rintro (h | h) <;> simp [h, jsOrStr, mkDoc]

theorem metadata_name_never_empty_witness :
    (mkDoc "My NFT" "" "ipfs://Qm1" "image/png").name = jsOrStr formW.nameField "My NFT" ∧
    (mkDoc "My NFT" "" "ipfs://Qm1" "image/png").description = jsOrStr formW.descField "" ∧
    ((formW.nameField = none ∨ formW.nameField = some "") →
      (mkDoc "My NFT" "" "ipfs://Qm1" "image/png").name = "My NFT") ∧
    ((formW.descField = none ∨ formW.descField = some "") →
      (mkDoc "My NFT" "" "ipfs://Qm1" "image/png").description = "") ∧
    (mkDoc "My NFT" "" "ipfs://Qm1" "image/png").name ≠ "" :=
  metadata_name_never_empty envW formW oracleW 1 "r" 2 "s"
    "metadata/2-s-metadata.json" "application/json"
    (mkDoc "My NFT" "" "ipfs://Qm1" "image/png") (by decide)

end NftUpload
